import Mathlib

/-!
Shallow embedding of the ha-knmi-wow integration.

This file embeds the testable core of the `knmi_wow` Home Assistant custom
component (files `const.py`, `coordinator.py`, `sensor.py`) in Lean 4 and
proves or refutes the frozen specification claims about it.

Modelling conventions:
* Python floats are idealised as rationals (`ℚ`) for finite values; the
  special values produced by Python float parsing (`nan`, `inf`, `-inf`)
  are carried explicitly by the inductive type `PyFloat`.
* Python dictionaries with distinct keys are association lists in insertion
  order.
* The Home Assistant state registry, and the Python built-in `float`
  constructor applied to a state string, are oracles (function parameters),
  as the spec itself models the host state store as a key-value lookup.
* Wall-clock time is an abstract tick counter; the formatted UTC date
  string is an abstract string parameter.
-/

namespace KnmiWow

/-! ## Constants (from `const.py`) -/

def DOMAIN : String := "knmi_wow"

def WOW_API_URL : String := "http://wow.metoffice.gov.uk/automaticreading"

def DEFAULT_UPDATE_INTERVAL : Nat := 10

def MIN_UPDATE_INTERVAL : Nat := 10

def SOFTWARE_TYPE : String := "HomeAssistant-KNMI-WOW"

def CONF_SENSOR_TEMPERATURE : String := "sensor_temperature"

def CONF_SENSOR_HUMIDITY : String := "sensor_humidity"

def CONF_SENSOR_PRESSURE : String := "sensor_pressure"

def CONF_SENSOR_RAIN : String := "sensor_rain"

def CONF_SENSOR_RAIN_DAILY : String := "sensor_rain_daily"

def CONF_SENSOR_WIND_SPEED : String := "sensor_wind_speed"

def CONF_SENSOR_WIND_DIR : String := "sensor_wind_dir"

def CONF_SENSOR_WIND_GUST : String := "sensor_wind_gust"

def CONF_SENSOR_DEW_POINT : String := "sensor_dew_point"

/-- All sensor configuration keys, in the iteration order of
`SENSOR_CONFIGS` in `const.py`. -/
def SENSOR_CONFIGS : List String :=
  [CONF_SENSOR_TEMPERATURE, CONF_SENSOR_HUMIDITY, CONF_SENSOR_PRESSURE,
   CONF_SENSOR_RAIN, CONF_SENSOR_RAIN_DAILY, CONF_SENSOR_WIND_SPEED,
   CONF_SENSOR_WIND_DIR, CONF_SENSOR_WIND_GUST, CONF_SENSOR_DEW_POINT]

/-- The dict `SENSOR_TO_WOW_PARAM` of `const.py`: config key to WOW wire
parameter name. -/
def SENSOR_TO_WOW_PARAM : List (String × String) :=
  [(CONF_SENSOR_TEMPERATURE, "tempf"),
   (CONF_SENSOR_HUMIDITY, "humidity"),
   (CONF_SENSOR_PRESSURE, "baromin"),
   (CONF_SENSOR_RAIN, "rainin"),
   (CONF_SENSOR_RAIN_DAILY, "dailyrainin"),
   (CONF_SENSOR_WIND_SPEED, "windspeedmph"),
   (CONF_SENSOR_WIND_DIR, "winddir"),
   (CONF_SENSOR_WIND_GUST, "windgustmph"),
   (CONF_SENSOR_DEW_POINT, "dewptf")]

def SENSOR_TYPE_TEMPERATURE : String := "temperature"

def SENSOR_TYPE_HUMIDITY : String := "humidity"

def SENSOR_TYPE_PRESSURE : String := "pressure"

def SENSOR_TYPE_RAIN : String := "rain"

def SENSOR_TYPE_WIND_SPEED : String := "wind_speed"

def SENSOR_TYPE_WIND_DIR : String := "wind_dir"

/-- The dict `SENSOR_TYPES` of `const.py`: config key to sensor type
category used for unit-aware conversion. -/
def SENSOR_TYPES : List (String × String) :=
  [(CONF_SENSOR_TEMPERATURE, SENSOR_TYPE_TEMPERATURE),
   (CONF_SENSOR_HUMIDITY, SENSOR_TYPE_HUMIDITY),
   (CONF_SENSOR_PRESSURE, SENSOR_TYPE_PRESSURE),
   (CONF_SENSOR_RAIN, SENSOR_TYPE_RAIN),
   (CONF_SENSOR_RAIN_DAILY, SENSOR_TYPE_RAIN),
   (CONF_SENSOR_WIND_SPEED, SENSOR_TYPE_WIND_SPEED),
   (CONF_SENSOR_WIND_DIR, SENSOR_TYPE_WIND_DIR),
   (CONF_SENSOR_WIND_GUST, SENSOR_TYPE_WIND_SPEED),
   (CONF_SENSOR_DEW_POINT, SENSOR_TYPE_TEMPERATURE)]

/-! ## Unit conversion helpers (from `const.py`) -/

/-- Python `str.lower()` restricted to ASCII case mapping, which agrees
with Python on every unit string the converter recognises. -/
def pyLower (s : String) : String := ⟨s.data.map Char.toLower⟩

/-- Python `str.strip()`: remove leading and trailing whitespace. -/
def pyStrip (s : String) : String :=
  ⟨((s.data.dropWhile Char.isWhitespace).reverse.dropWhile
      Char.isWhitespace).reverse⟩

/-- The normalisation `unit.lower().strip()` applied by
`convert_value_with_unit` before dispatching on the unit string. -/
def pyNorm (s : String) : String := pyStrip (pyLower s)

def celsius_to_fahrenheit (celsius : ℚ) : ℚ := (celsius * 9 / 5) + 32

def hpa_to_inhg (hpa : ℚ) : ℚ := hpa * 0.02953

def mbar_to_inhg (mbar : ℚ) : ℚ := mbar * 0.02953

def mm_to_inches (mm : ℚ) : ℚ := mm * 0.03937

def kmh_to_mph (kmh : ℚ) : ℚ := kmh * 0.621371

def ms_to_mph (ms : ℚ) : ℚ := ms * 2.23694

def knots_to_mph (knots : ℚ) : ℚ := knots * 1.15078

/-- The body of `convert_value_with_unit` after the unit string has been
normalised by `unit.lower().strip()`.  Each branch mirrors the source
dispatch in `const.py` lines 133-191. -/
def convertNormalized (value : ℚ) (sensor_type : String) (unit : String) : ℚ :=
  if sensor_type = SENSOR_TYPE_TEMPERATURE then
    if unit ∈ ["°c", "c", "celsius"] then celsius_to_fahrenheit value
    else if unit ∈ ["°f", "f", "fahrenheit"] then value
    else celsius_to_fahrenheit value
  else if sensor_type = SENSOR_TYPE_HUMIDITY then
    value
  else if sensor_type = SENSOR_TYPE_PRESSURE then
    if unit ∈ ["hpa", "mbar", "mb"] then hpa_to_inhg value
    else if unit ∈ ["inhg", "in"] then value
    else if unit ∈ ["mmhg"] then value * 0.03937
    else if unit ∈ ["pa"] then (value / 100) * 0.02953
    else hpa_to_inhg value
  else if sensor_type = SENSOR_TYPE_RAIN then
    if unit ∈ ["mm", "millimeter", "millimeters"] then mm_to_inches value
    else if unit ∈ ["in", "inch", "inches"] then value
    else if unit ∈ ["cm"] then mm_to_inches (value * 10)
    else mm_to_inches value
  else if sensor_type = SENSOR_TYPE_WIND_SPEED then
    if unit ∈ ["m/s", "ms"] then ms_to_mph value
    else if unit ∈ ["km/h", "kmh", "kph"] then kmh_to_mph value
    else if unit ∈ ["mph"] then value
    else if unit ∈ ["kn", "kt", "knots"] then knots_to_mph value
    else ms_to_mph value
  else if sensor_type = SENSOR_TYPE_WIND_DIR then
    value
  else value

/-- Embedding of `convert_value_with_unit` from `const.py`: a `None` unit becomes the
empty string, then the unit string is lowercased and stripped of
surrounding whitespace before dispatch. -/
def convert_value_with_unit (value : ℚ) (sensor_type : String)
    (unit : Option String) : ℚ :=
  convertNormalized value sensor_type (pyNorm (unit.getD ""))

/-! ## Python float values and rounding -/

/-- A Python float as produced by the built-in `float` constructor: a
finite value (idealised as a rational) or one of the special values
`nan`, `inf`, `-inf`, which `float("nan")`, `float("inf")`,
`float("-inf")` return without raising. -/
inductive PyFloat where
  | finite (q : ℚ)
  | nan
  | inf
  | ninf
deriving DecidableEq

/-- Round half to even on rationals: the idealisation of the Python
built-in round, which uses round-half-to-even. -/
def roundHalfEven (q : ℚ) : ℤ :=
  let f := ⌊q⌋
  if q - f < 1/2 then f
  else if 1/2 < q - f then f + 1
  else if f % 2 = 0 then f else f + 1

/-- Python `round(value, 2)` on a finite float, idealised to rationals. -/
def round2 (q : ℚ) : ℚ := (roundHalfEven (q * 100) : ℚ) / 100

/-- Lifting of `convert_value_with_unit` to Python float values.  Every branch
of the converter is the identity or a map `x * a + b` with `a > 0` and
finite `b`, so IEEE arithmetic sends `nan` to `nan` and `±inf` to `±inf`;
the finite case is the rational converter. -/
def convertP (value : PyFloat) (sensor_type : String)
    (unit : Option String) : PyFloat :=
  match value with
  | .finite q => .finite (convert_value_with_unit q sensor_type unit)
  | v => v

/-- Python `round(value, 2)` on any float: `round` maps `nan` and `±inf`
to themselves. -/
def round2P : PyFloat → PyFloat
  | .finite q => .finite (round2 q)
  | v => v

/-! ## Observation assembly (from `coordinator.py`,
`_collect_sensor_data`) -/

/-- A Home Assistant state object as read by the coordinator: the state
string and the `unit_of_measurement` attribute. -/
structure HAState where
  state : String
  unit : Option String
deriving DecidableEq

/-- One iteration of the `for sensor_key in SENSOR_CONFIGS` loop of
`_collect_sensor_data`, returning the wire entry the slot contributes, or
`none` when the slot is skipped (`continue` in the source).

Oracles: `config` is the merge of the config-entry data and options
restricted to slot keys (a missing or falsy entry-id skips the slot);
`states` is `hass.states.get`; `parse` is the Python built-in `float`
applied to a state string, `none` meaning it raised `ValueError`. -/
def collectSlot (config : String → Option String)
    (states : String → Option HAState)
    (parse : String → Option PyFloat)
    (sensor_key : String) : Option (String × PyFloat) :=
  match config sensor_key with
  | none => none
  | some entity_id =>
    if entity_id = "" then none
    else
      match states entity_id with
      | none => none
      | some st =>
        if st.state = "unknown" ∨ st.state = "unavailable" then none
        else
          match parse st.state with
          | none => none
          | some value =>
            let value :=
              match SENSOR_TYPES.lookup sensor_key with
              | some sensor_type => convertP value sensor_type st.unit
              | none => value
            match SENSOR_TO_WOW_PARAM.lookup sensor_key with
            | some wow_param => some (wow_param, round2P value)
            | none => none

/-- Embedding of `_collect_sensor_data`: the loop body never reads the accumulated
dict and the wire parameter names of distinct slots are distinct, so the
insertion-ordered dict it builds is the `filterMap` of the per-slot body
over `SENSOR_CONFIGS`. -/
def collectSensorData (config : String → Option String)
    (states : String → Option HAState)
    (parse : String → Option PyFloat) : List (String × PyFloat) :=
  SENSOR_CONFIGS.filterMap (collectSlot config states parse)

/-! ## Uploader (from `coordinator.py`, `_send_to_wow`) -/

/-- The outcome of the single HTTP GET issued by `_send_to_wow`: a
response with a status code and body text, a connection-level failure
(`aiohttp.ClientError`) with its message, or a timeout. -/
inductive Transport where
  | http (status : Nat) (body : String)
  | connError (detail : String)
  | timedOut
deriving DecidableEq

/-- Embedding of `_send_to_wow`: interpretation of the single transport outcome.  The
function consumes exactly one outcome; no retry happens inside the call. -/
def sendToWow : Transport → Bool × Option String
  | .http status body =>
      if status = 200 then (true, none)
      else if status = 429 then (false, some "Rate limit exceeded (429)")
      else (false, some ("HTTP " ++ toString status ++ ": " ++ body))
  | .connError detail => (false, some ("Connection error: " ++ detail))
  | .timedOut => (false, some "Request timed out")

/-! ## Upload state tracker (from `coordinator.py`) -/

/-- The mutable coordinator fields together with the configuration read
in `KNMIWOWCoordinator.__init__`.  Timestamps are abstract ticks. -/
structure CoordState where
  site_id : String
  auth_key : String
  update_interval : Nat
  debug_mode : Bool
  last_upload : Option Nat
  last_error : Option String
  upload_count : Nat
  last_request_params : Option (List (String × String))
deriving DecidableEq

/-- The coordinator state right after `__init__`. -/
def initState (site_id auth_key : String) (update_interval : Nat)
    (debug_mode : Bool) : CoordState :=
  { site_id := site_id, auth_key := auth_key,
    update_interval := update_interval, debug_mode := debug_mode,
    last_upload := none, last_error := none, upload_count := 0,
    last_request_params := none }

/-- Embedding of `_build_request_params`: fixed metadata first, then the weather data
entries in insertion order.  Weather values arrive already stringified
(`str(value)` in the source is abstracted by the caller). -/
def buildRequestParams (st : CoordState) (dateutc : String)
    (weather_data : List (String × String)) : List (String × String) :=
  [("siteid", st.site_id),
   ("siteAuthenticationKey", st.auth_key),
   ("dateutc", dateutc),
   ("softwaretype", SOFTWARE_TYPE)] ++ weather_data

/-- The safe copy logged in debug mode (`_async_update_data` lines
81-84): drop the `siteAuthenticationKey` entry, then add it back with the
fixed mask token. -/
def debugLogParams (params : List (String × String)) :
    List (String × String) :=
  params.filter (fun kv => kv.1 ≠ "siteAuthenticationKey")
    ++ [("siteAuthenticationKey", "******")]

/-- The safe copy exposed in the snapshot (`_get_status_data` lines
214-218): drop both the `siteAuthenticationKey` and `siteid` entries. -/
def stripAuthParams (params : List (String × String)) :
    List (String × String) :=
  params.filter
    (fun kv => ¬ (kv.1 = "siteAuthenticationKey" ∨ kv.1 = "siteid"))

/-- The status snapshot returned by `_get_status_data`. -/
structure StatusData where
  status : String
  last_upload : Option Nat
  last_error : Option String
  next_upload : Nat
  upload_count : Nat
  debug_mode : Bool
  last_sent_data : Option (List (String × String))
deriving DecidableEq

/-- Embedding of `_get_status_data`: note that the snapshot field `last_error` is the
`error` argument, not the tracker field `self.last_error`, and that
`last_sent_data` appears only in debug mode when `last_request_params` is
a truthy (non-`None`, non-empty) dict. -/
def getStatusData (st : CoordState) (now : Nat) (success : Bool)
    (error : Option String) : StatusData :=
  { status := if success then "ok" else "error",
    last_upload := st.last_upload,
    last_error := error,
    next_upload := now + (if st.update_interval = 0 then
      DEFAULT_UPDATE_INTERVAL else st.update_interval),
    upload_count := st.upload_count,
    debug_mode := st.debug_mode,
    last_sent_data :=
      match st.last_request_params with
      | some params =>
        if st.debug_mode ∧ params ≠ [] then some (stripAuthParams params)
        else none
      | none => none }

/-- What happened inside one invocation of `_async_update_data`:
* `run weather_data transport` — the body ran normally;
  `weather_data` is the (stringified) result of `_collect_sensor_data`
  and, when it is non-empty, `transport` is the outcome the single
  network attempt observed;
* `raiseEarly msg` — an `Exception` with message `msg` escaped from
  `_collect_sensor_data`, before `last_request_params` was assigned;
* `raiseLate params msg` — an `Exception` with message `msg` escaped
  later in the body (after `self.last_request_params = params`). -/
inductive CycleEvent where
  | run (weather_data : List (String × String)) (transport : Transport)
  | raiseEarly (msg : String)
  | raiseLate (params : List (String × String)) (msg : String)
deriving DecidableEq

/-- Embedding of `_async_update_data`: one complete cycle.  Returns the mutated
coordinator state, the returned status snapshot, and the parameters
logged by the debug branch (`none` when nothing was logged).  The
`raiseEarly`/`raiseLate` cases are the `except Exception` handler with
`error_msg = str(ex)`. -/
def runCycle (st : CoordState) (dateutc : String) (now : Nat)
    (ev : CycleEvent) :
    CoordState × StatusData × Option (List (String × String)) :=
  match ev with
  | .run weather_data transport =>
    if weather_data = [] then
      (st, getStatusData st now false (some "No sensor data available"),
       none)
    else
      let params := buildRequestParams st dateutc weather_data
      let st1 := { st with last_request_params := some params }
      let logged :=
        if st1.debug_mode then some (debugLogParams params) else none
      let res := sendToWow transport
      let st2 :=
        if res.1 then
          { st1 with last_upload := some now, last_error := none,
                     upload_count := st1.upload_count + 1 }
        else
          { st1 with last_error := res.2 }
      (st2, getStatusData st2 now res.1 res.2, logged)
  | .raiseEarly msg =>
    let st2 := { st with last_error := some msg }
    (st2, getStatusData st2 now false (some msg), none)
  | .raiseLate params msg =>
    let st2 := { st with last_request_params := some params,
                         last_error := some msg }
    (st2, getStatusData st2 now false (some msg), none)

/-- One cycle with the weather data produced by `_collect_sensor_data`,
stringified entry-wise by the abstract Python `str` (`pyStr`). -/
def runCycleFull (st : CoordState) (dateutc : String) (now : Nat)
    (config : String → Option String) (states : String → Option HAState)
    (parse : String → Option PyFloat) (pyStr : PyFloat → String)
    (transport : Transport) :
    CoordState × StatusData × Option (List (String × String)) :=
  runCycle st dateutc now
    (.run ((collectSensorData config states parse).map
      (fun kv => (kv.1, pyStr kv.2))) transport)

/-- A sequence of cycles, threading the coordinator state. -/
def runCycles (st : CoordState) :
    List (String × Nat × CycleEvent) → CoordState
  | [] => st
  | (dateutc, now, ev) :: rest =>
    runCycles (runCycle st dateutc now ev).1 rest


/-! ## Shared helper lemmas and example inputs -/

/-- The two halves of the `_send_to_wow` result invariant: a successful
send carries no error message, a failed send always carries one. -/
theorem sendToWow_spec (t : Transport) :
    ((sendToWow t).1 = true → (sendToWow t).2 = none) ∧
    ((sendToWow t).1 = false → ∃ m, (sendToWow t).2 = some m) := by
  rcases t with ⟨s, b⟩ | d | _
  · simp only [sendToWow]
    split_ifs <;> simp
  · simp [sendToWow]
  · simp [sendToWow]

/-- No single cycle decreases `upload_count`. -/
theorem runCycle_count_le (st : CoordState) (dateutc : String) (now : Nat)
    (ev : CycleEvent) :
    st.upload_count ≤ (runCycle st dateutc now ev).1.upload_count := by
  rcases ev with ⟨wd, t⟩ | msg | ⟨params, msg⟩
  · by_cases hwd : wd = []
    · simp [runCycle, hwd]
    · rcases hs : sendToWow t with ⟨b, e⟩
      rcases b <;> simp [runCycle, hwd, hs]
  · simp [runCycle]
  · simp [runCycle]

/-- When all the per-slot checks pass, the slot contributes its converted
and rounded value under its wire parameter name. -/
theorem collectSlot_value (config : String → Option String)
    (states : String → Option HAState) (parse : String → Option PyFloat)
    (k e : String) (st : HAState) (v : PyFloat) (w : String)
    (he : config k = some e) (hee : e ≠ "") (hst : states e = some st)
    (hu1 : st.state ≠ "unknown") (hu2 : st.state ≠ "unavailable")
    (hp : parse st.state = some v)
    (hw : SENSOR_TO_WOW_PARAM.lookup k = some w) :
    collectSlot config states parse k =
      some (w, round2P (match SENSOR_TYPES.lookup k with
        | some ty => convertP v ty st.unit
        | none => v)) := by
  simp only [collectSlot, he, hst, hp, if_neg hee,
    if_neg (not_or.mpr ⟨hu1, hu2⟩), hw]

/-- A slot that contributes an entry passed every per-slot check. -/
theorem collectSlot_isSome_then (config : String → Option String)
    (states : String → Option HAState) (parse : String → Option PyFloat)
    (k : String) :
    (∃ entry, collectSlot config states parse k = some entry) →
      ∃ e st v, config k = some e ∧ e ≠ "" ∧ states e = some st ∧
        st.state ≠ "unknown" ∧ st.state ≠ "unavailable" ∧
        parse st.state = some v := by
  rintro ⟨entry, hval⟩
  rcases hc : config k with _ | e
  · simp [collectSlot, hc] at hval
  by_cases hee : e = ""
  · simp [collectSlot, hc, hee] at hval
  rcases hst : states e with _ | st
  · simp [collectSlot, hc, hee, hst] at hval
  by_cases hun : st.state = "unknown" ∨ st.state = "unavailable"
  · simp only [collectSlot, hc, hst, if_neg hee, if_pos hun] at hval
    simp at hval
  rcases hp : parse st.state with _ | v
  · simp only [collectSlot, hc, hst, if_neg hee, if_neg hun, hp] at hval
    simp at hval
  push_neg at hun
  exact ⟨e, st, v, rfl, hee, hst, hun.1, hun.2, hp⟩

/-- A coordinator state whose previous cycle succeeded: no stored error,
a recorded last upload, a positive success count. -/
def exStateOkHistory : CoordState :=
  { site_id := "site", auth_key := "key", update_interval := 10,
    debug_mode := false, last_upload := some 5, last_error := none,
    upload_count := 3, last_request_params := none }

/-- A coordinator state with debug mode enabled and recognisable secret
key and site id values. -/
def exDebugState : CoordState :=
  { site_id := "SITE-123", auth_key := "SECRET-KEY-456",
    update_interval := 10, debug_mode := true, last_upload := none,
    last_error := none, upload_count := 0, last_request_params := none }

/-- The exact association list the debug branch logs for `exDebugState`
with one weather entry: the secret key entry is masked, the site id entry
is present verbatim. -/
def exLoggedParams : List (String × String) :=
  [("siteid", "SITE-123"), ("dateutc", "2025-01-01 00:00:00"),
   ("softwaretype", "HomeAssistant-KNMI-WOW"), ("tempf", "68.0"),
   ("siteAuthenticationKey", "******")]

/-- A configuration binding only the temperature slot. -/
def nanConfig : String → Option String :=
  fun k => if k = "sensor_temperature" then some "sensor.t" else none

/-- A state registry whose temperature entity reports the state string
`"nan"`, which is neither `"unknown"` nor `"unavailable"`. -/
def nanStates : String → Option HAState :=
  fun e => if e = "sensor.t" then some ⟨"nan", none⟩ else none

/-- The Python `float` constructor on the state strings that occur in
`nanStates`: `float("nan")` succeeds and returns a NaN (a non-finite
float) instead of raising `ValueError`. -/
def nanParse : String → Option PyFloat :=
  fun s => if s = "nan" then some .nan else none

/-- A configuration with no slot bound at all. -/
def emptyConfig : String → Option String := fun _ => none

/-- A state registry with no entities. -/
def emptyStates : String → Option HAState := fun _ => none

/-- A parse oracle that accepts nothing. -/
def emptyParse : String → Option PyFloat := fun _ => none

/-- An arbitrary stringification of float values. -/
def emptyPyStr : PyFloat → String := fun _ => ""

/-! ## Claim theorems -/

/-- C1 counterexample.  Start from a state whose previous cycle succeeded
(`last_error = none`) and run a cycle that fails because no sensor data is
available: the returned snapshot reports the failure, yet the tracker
field `last_error` is still `none` afterwards — the no-data branch of
`_async_update_data` returns before ever assigning `self.last_error`, so
a failing cycle does not always set the tracker field to a non-null
message as the claim states.  (The transport argument is irrelevant here;
no request is made.) -/
theorem last_error_unchanged_on_no_data_ce :
    (runCycle exStateOkHistory "d" 6 (.run [] (.http 200 ""))).2.1.status
      = "error" ∧
    (runCycle exStateOkHistory "d" 6 (.run [] (.http 200 ""))).1.last_error
      = none := ⟨rfl, rfl⟩

/-- C1 (amended): on a successful cycle both the tracker field
`last_error` and the snapshot field are cleared to `none`; every failing
cycle returns a snapshot whose `last_error` carries a message; on the
no-data failure the tracker field is left unchanged (only the snapshot
carries the message), while on every other failure the tracker field
records exactly the snapshot message. -/
theorem last_error_lifecycle (st : CoordState) (dateutc : String)
    (now : Nat) (ev : CycleEvent) :
    ((runCycle st dateutc now ev).2.1.status = "ok" →
      (runCycle st dateutc now ev).1.last_error = none ∧
      (runCycle st dateutc now ev).2.1.last_error = none) ∧
    ((runCycle st dateutc now ev).2.1.status = "error" →
      ∃ m, (runCycle st dateutc now ev).2.1.last_error = some m) ∧
    (∀ t, ev = CycleEvent.run [] t →
      (runCycle st dateutc now ev).2.1.status = "error" ∧
      (runCycle st dateutc now ev).2.1.last_error =
        some "No sensor data available" ∧
      (runCycle st dateutc now ev).1.last_error = st.last_error) ∧
    ((runCycle st dateutc now ev).2.1.status = "error" →
      (∀ t, ev ≠ CycleEvent.run [] t) →
      (runCycle st dateutc now ev).1.last_error =
        (runCycle st dateutc now ev).2.1.last_error) := by
  rcases ev with ⟨wd, t⟩ | msg | ⟨params, msg⟩
  · by_cases hwd : wd = []
    · subst hwd
      refine ⟨?_, fun _ => ⟨_, rfl⟩, fun t' _ => ⟨rfl, rfl, rfl⟩,
        fun _ hne => absurd rfl (hne t)⟩
      intro h
      exact absurd h (by simp [runCycle, getStatusData])
    · have hspec := sendToWow_spec t
      rcases hs : sendToWow t with ⟨b, e⟩
      rw [hs] at hspec
      rcases b
      · obtain ⟨m, hm⟩ := hspec.2 rfl
        simp only at hm
        subst hm
        refine ⟨?_, fun _ => ⟨m, by simp [runCycle, hwd, hs, getStatusData]⟩,
          ?_, fun _ _ => by simp [runCycle, hwd, hs, getStatusData]⟩
        · intro h
          exact absurd h (by simp [runCycle, hwd, hs, getStatusData])
        · intro t' h
          simp_all
      · have hn : e = none := hspec.1 rfl
        subst hn
        refine ⟨fun _ => ?_, ?_, ?_, ?_⟩
        · constructor <;> simp [runCycle, hwd, hs, getStatusData]
        · intro h
          exact absurd h (by simp [runCycle, hwd, hs, getStatusData])
        · intro t' h
          simp_all
        · intro h
          exact absurd h (by simp [runCycle, hwd, hs, getStatusData])
  · exact ⟨fun h => absurd h (by simp [runCycle, getStatusData]),
      fun _ => ⟨msg, rfl⟩, fun t' h => by simp_all, fun _ _ => rfl⟩
  · exact ⟨fun h => absurd h (by simp [runCycle, getStatusData]),
      fun _ => ⟨msg, rfl⟩, fun t' h => by simp_all, fun _ _ => rfl⟩

/-- C1 witness: the amended lifecycle theorem applied to a concrete
no-data cycle shows the tracker field is carried over unchanged. -/
theorem last_error_lifecycle_witness :
    (runCycle exStateOkHistory "d" 6
      (.run [] (.http 200 ""))).1.last_error = exStateOkHistory.last_error :=
  ((last_error_lifecycle exStateOkHistory "d" 6 _).2.2.1
    (.http 200 "") rfl).2.2

/-- C2 counterexample.  With debug mode on, the parameters logged by
`_async_update_data` mask only the `siteAuthenticationKey` entry; the
`siteid` entry is logged with its literal value, so the debug log is not
redacted for the site id as the claim states. -/
theorem debug_log_retains_site_id_ce :
    (runCycle exDebugState "2025-01-01 00:00:00" 0
        (.run [("tempf", "68.0")] (.http 200 ""))).2.2 =
      some exLoggedParams ∧
    ("siteid", "SITE-123") ∈ exLoggedParams := ⟨rfl, by decide⟩

/-- C2 (amended): with debug mode on and a non-empty observation, the
cycle logs exactly the masked copy of the outgoing parameters, in which
every `siteAuthenticationKey` entry carries the fixed mask token
`"******"` but the `siteid` entry still carries the literal site id; the
snapshot field `last_sent_data` is the stripped copy, which contains
neither a `siteAuthenticationKey` nor a `siteid` entry. -/
theorem debug_redaction_behavior (st : CoordState) (dateutc : String)
    (now : Nat) (wd : List (String × String)) (t : Transport)
    (hdbg : st.debug_mode = true) (hwd : wd ≠ []) :
    (runCycle st dateutc now (.run wd t)).2.2 =
      some (debugLogParams (buildRequestParams st dateutc wd)) ∧
    (∀ v, ("siteAuthenticationKey", v) ∈
        debugLogParams (buildRequestParams st dateutc wd) → v = "******") ∧
    ("siteid", st.site_id) ∈
      debugLogParams (buildRequestParams st dateutc wd) ∧
    (runCycle st dateutc now (.run wd t)).2.1.last_sent_data =
      some (stripAuthParams (buildRequestParams st dateutc wd)) ∧
    (∀ k v, (k, v) ∈ stripAuthParams (buildRequestParams st dateutc wd) →
      k ≠ "siteAuthenticationKey" ∧ k ≠ "siteid") := by
  refine ⟨?_, ?_, ?_, ?_, ?_⟩
  · rcases hs : sendToWow t with ⟨b, e⟩
    rcases b <;> simp [runCycle, hwd, hs, hdbg]
  · intro v hv
    simp only [debugLogParams, List.mem_append, List.mem_filter,
      List.mem_singleton] at hv
    rcases hv with ⟨_, hne⟩ | heq
    · simp at hne
    · exact (Prod.mk.injEq _ _ _ _ ▸ heq).2
  · simp [debugLogParams, buildRequestParams, List.mem_filter]
  · rcases hs : sendToWow t with ⟨b, e⟩
    rcases b <;>
      simp [runCycle, hwd, hs, hdbg, getStatusData, buildRequestParams]
  · intro k v hkv
    simp only [stripAuthParams, List.mem_filter, decide_not] at hkv
    have := hkv.2
    simp only [decide_eq_true_eq, not_or] at this
    constructor <;> simp_all

/-- C2 witness: the amended redaction theorem applied to the concrete
debug state shows the logged parameters contain the literal site id. -/
theorem debug_redaction_behavior_witness :
    ("siteid", exDebugState.site_id) ∈
      debugLogParams (buildRequestParams exDebugState
        "2025-01-01 00:00:00" [("tempf", "68.0")]) :=
  (debug_redaction_behavior exDebugState "2025-01-01 00:00:00" 0
    [("tempf", "68.0")] (.http 200 "") rfl (by decide)).2.2.1

/-- C3: `upload_count` increments by exactly one on a cycle whose upload
returns HTTP 200 on a non-empty observation; on any cycle whose snapshot
reports failure the count and the last-success timestamp are unchanged
(in particular after a forced HTTP 429, which also yields the rate-limit
message); a single cycle never decreases the count, and over any sequence
of cycles the count is monotonically non-decreasing. -/
theorem upload_count_monotone (st : CoordState) (dateutc : String)
    (now : Nat) (ev : CycleEvent) (wd : List (String × String))
    (body : String) (evs : List (String × Nat × CycleEvent)) :
    (ev = .run wd (.http 200 body) → wd ≠ [] →
      (runCycle st dateutc now ev).1.upload_count = st.upload_count + 1) ∧
    ((runCycle st dateutc now ev).2.1.status = "error" →
      (runCycle st dateutc now ev).1.upload_count = st.upload_count ∧
      (runCycle st dateutc now ev).1.last_upload = st.last_upload) ∧
    (ev = .run wd (.http 429 body) → wd ≠ [] →
      (runCycle st dateutc now ev).1.upload_count = st.upload_count ∧
      (runCycle st dateutc now ev).1.last_upload = st.last_upload ∧
      (runCycle st dateutc now ev).2.1.last_error =
        some "Rate limit exceeded (429)") ∧
    st.upload_count ≤ (runCycle st dateutc now ev).1.upload_count ∧
    st.upload_count ≤ (runCycles st evs).upload_count := by
  refine ⟨?_, ?_, ?_, runCycle_count_le st dateutc now ev, ?_⟩
  · rintro rfl hwd
    simp [runCycle, hwd, sendToWow]
  · rcases ev with ⟨wd', t⟩ | msg | ⟨params, msg⟩
    · by_cases hwd : wd' = []
      · simp [runCycle, hwd, getStatusData]
      · rcases hs : sendToWow t with ⟨b, e⟩
        rcases b <;> simp [runCycle, hwd, hs, getStatusData]
    · simp [runCycle, getStatusData]
    · simp [runCycle, getStatusData]
  · rintro rfl hwd
    simp [runCycle, hwd, sendToWow, getStatusData]
  · induction evs generalizing st with
    | nil => exact le_refl _
    | cons e rest ih =>
      rcases e with ⟨d, n, ev2⟩
      exact le_trans (runCycle_count_le st d n ev2) (ih _)

/-- C3 witness: a concrete successful cycle increments the count by one. -/
theorem upload_count_monotone_witness :
    (runCycle exStateOkHistory "d" 7
      (.run [("tempf", "68.0")] (.http 200 ""))).1.upload_count =
      exStateOkHistory.upload_count + 1 :=
  (upload_count_monotone exStateOkHistory "d" 7
    (.run [("tempf", "68.0")] (.http 200 "")) [("tempf", "68.0")] "" []).1
    rfl (by decide)

/-- C4: for every value and every recognised source unit string of every
category, `convert_value_with_unit` reproduces the documented conversion
formula; the result depends only on the lowercased and stripped unit
string, so it is invariant under casing and surrounding whitespace; and
the two concrete scenarios hold: 20 °C converts to 68 °F, and
1013.25 hPa converts to a value that rounds to 29.92 inHg. -/
theorem converter_table_formulas (v : ℚ) (u u₁ u₂ : String) :
    (pyNorm u₁ = pyNorm u₂ → ∀ ty, convert_value_with_unit v ty (some u₁) =
      convert_value_with_unit v ty (some u₂)) ∧
    (pyNorm u ∈ ["°c", "c", "celsius"] →
      convert_value_with_unit v "temperature" (some u) = v * 9 / 5 + 32) ∧
    (pyNorm u ∈ ["°f", "f", "fahrenheit"] →
      convert_value_with_unit v "temperature" (some u) = v) ∧
    convert_value_with_unit v "humidity" (some u) = v ∧
    (pyNorm u ∈ ["hpa", "mbar", "mb"] →
      convert_value_with_unit v "pressure" (some u) = v * 0.02953) ∧
    (pyNorm u ∈ ["inhg", "in"] →
      convert_value_with_unit v "pressure" (some u) = v) ∧
    (pyNorm u = "mmhg" →
      convert_value_with_unit v "pressure" (some u) = v * 0.03937) ∧
    (pyNorm u = "pa" →
      convert_value_with_unit v "pressure" (some u) = (v / 100) * 0.02953) ∧
    (pyNorm u ∈ ["mm", "millimeter", "millimeters"] →
      convert_value_with_unit v "rain" (some u) = v * 0.03937) ∧
    (pyNorm u ∈ ["in", "inch", "inches"] →
      convert_value_with_unit v "rain" (some u) = v) ∧
    (pyNorm u = "cm" →
      convert_value_with_unit v "rain" (some u) = (v * 10) * 0.03937) ∧
    (pyNorm u ∈ ["m/s", "ms"] →
      convert_value_with_unit v "wind_speed" (some u) = v * 2.23694) ∧
    (pyNorm u ∈ ["km/h", "kmh", "kph"] →
      convert_value_with_unit v "wind_speed" (some u) = v * 0.621371) ∧
    (pyNorm u = "mph" →
      convert_value_with_unit v "wind_speed" (some u) = v) ∧
    (pyNorm u ∈ ["kn", "kt", "knots"] →
      convert_value_with_unit v "wind_speed" (some u) = v * 1.15078) ∧
    convert_value_with_unit v "wind_dir" (some u) = v ∧
    convert_value_with_unit 20 "temperature" (some "°C") = 68 ∧
    round2 (convert_value_with_unit 1013.25 "pressure" (some "hPa"))
      = 29.92 := by
  have norm_case : ∀ (ty n : String), pyNorm u = n →
      convert_value_with_unit v ty (some u) = convertNormalized v ty n := by
    intro ty n h
    show convertNormalized v ty (pyNorm u) = _
    rw [h]
  have conc1 : convert_value_with_unit 20 "temperature" (some "°C") = 68 := by
    have h1 : pyNorm "°C" = "°c" := by decide
    show convertNormalized 20 "temperature" (pyNorm "°C") = 68
    rw [h1]
    show celsius_to_fahrenheit 20 = 68
    norm_num [celsius_to_fahrenheit]
  have conc2 : round2 (convert_value_with_unit 1013.25 "pressure"
      (some "hPa")) = 29.92 := by
    have h : convert_value_with_unit 1013.25 "pressure" (some "hPa") =
        1013.25 * 0.02953 := rfl
    rw [h]
    norm_num [round2, roundHalfEven]
  refine ⟨?_, ?_, ?_, rfl, ?_, ?_, ?_, ?_, ?_, ?_, ?_, ?_, ?_, ?_, ?_,
    rfl, conc1, conc2⟩
  · intro h ty
    show convertNormalized v ty (pyNorm u₁) = convertNormalized v ty (pyNorm u₂)
    rw [h]
  all_goals (
    intro h
    try simp only [List.mem_cons, List.mem_singleton, List.not_mem_nil,
      or_false] at h
    first
    | (rcases h with h | h | h <;> (rw [norm_case _ _ h] ; rfl))
    | (rcases h with h | h <;> (rw [norm_case _ _ h] ; rfl))
    | (rw [norm_case _ _ h] ; rfl))

/-- C4 witness: the table theorem applied at 20 °C. -/
theorem converter_table_formulas_witness :
    convert_value_with_unit 20 "temperature" (some "°C")
      = 20 * 9 / 5 + 32 :=
  (converter_table_formulas 20 "°C" "x" "x").2.1 (by decide)

/-- C5: the result mapping of `_send_to_wow` for every transport outcome:
HTTP 200 succeeds with no error; HTTP 429 fails with the dedicated
rate-limit message; any other status fails with the status and body;
a connection error fails with its detail; a timeout fails with the fixed
message.  `sendToWow` consumes exactly one transport outcome, so no retry
happens inside the call. -/
theorem uploader_result_mapping (status : Nat) (body detail : String)
    (h200 : status ≠ 200) (h429 : status ≠ 429) :
    sendToWow (.http 200 body) = (true, none) ∧
    sendToWow (.http 429 body) = (false, some "Rate limit exceeded (429)") ∧
    sendToWow (.http status body) =
      (false, some ("HTTP " ++ toString status ++ ": " ++ body)) ∧
    sendToWow (.http 500 "boom") = (false, some "HTTP 500: boom") ∧
    sendToWow (.connError detail) =
      (false, some ("Connection error: " ++ detail)) ∧
    sendToWow .timedOut = (false, some "Request timed out") := by
  refine ⟨rfl, rfl, ?_, ?_, rfl, rfl⟩
  · simp [sendToWow, h200, h429]
  · rfl

/-- C5 witness: the mapping at a concrete 500 response with body
`"boom"`. -/
theorem uploader_result_mapping_witness :
    sendToWow (.http 500 "boom") =
      (false, some ("HTTP " ++ toString 500 ++ ": " ++ "boom")) :=
  (uploader_result_mapping 500 "boom" "x" (by decide) (by decide)).2.2.1

/-- C6: when `_collect_sensor_data` returns an empty observation, the
cycle result does not depend on the transport at all (no network call is
consulted), the snapshot reports failure with exactly
`"No sensor data available"`, and the coordinator state is unchanged. -/
theorem empty_observation_preflight_failure (st : CoordState)
    (dateutc : String) (now : Nat) (config : String → Option String)
    (states : String → Option HAState) (parse : String → Option PyFloat)
    (pyStr : PyFloat → String) (t t2 : Transport)
    (h : collectSensorData config states parse = []) :
    runCycleFull st dateutc now config states parse pyStr t =
      runCycleFull st dateutc now config states parse pyStr t2 ∧
    (runCycleFull st dateutc now config states parse pyStr t).2.1.status
      = "error" ∧
    (runCycleFull st dateutc now config states parse pyStr t).2.1.last_error
      = some "No sensor data available" ∧
    (runCycleFull st dateutc now config states parse pyStr t).1 = st := by
  unfold runCycleFull
  rw [h]
  exact ⟨rfl, rfl, rfl, rfl⟩

/-- C6 witness: the pre-flight failure on a configuration with no slot
bound. -/
theorem empty_observation_preflight_failure_witness :
    (runCycleFull exStateOkHistory "d" 6 emptyConfig emptyStates
      emptyParse emptyPyStr (.http 200 "")).2.1.last_error =
      some "No sensor data available" :=
  (empty_observation_preflight_failure exStateOkHistory "d" 6 emptyConfig
    emptyStates emptyParse emptyPyStr (.http 200 "")
    (.connError "x") rfl).2.2.1

/-- C7 counterexample.  The source includes a slot whenever the Python
`float` constructor succeeds on the state string; it performs no
finiteness check.  With the temperature slot bound to an entity whose
state string is `"nan"` — on which `float` succeeds and returns NaN —
the assembled observation contains the non-finite value `PyFloat.nan`
under `"tempf"`, refuting the claim that a slot is included only if its
value parses as a finite number. -/
theorem assembler_includes_nonfinite_ce :
    collectSensorData nanConfig nanStates nanParse =
      [("tempf", PyFloat.nan)] := rfl

/-- C7 (amended): an entry belongs to the assembled observation exactly
when some slot contributes it, so one skipped slot never affects the
others; a configured slot contributes an entry if and only if its binding
is present and non-empty, the looked-up state exists and is neither
`"unknown"` nor `"unavailable"`, and the Python `float` constructor
succeeds on the state value — which may also yield a non-finite float;
and the contributed entry is the converted value rounded to two decimal
places, stored under the slot fixed wire parameter name. -/
theorem assembler_slot_inclusion (config : String → Option String)
    (states : String → Option HAState) (parse : String → Option PyFloat)
    (w2 : String) (pv : PyFloat) (k : String) (hk : k ∈ SENSOR_CONFIGS) :
    ((w2, pv) ∈ collectSensorData config states parse ↔
      ∃ j, j ∈ SENSOR_CONFIGS ∧
        collectSlot config states parse j = some (w2, pv)) ∧
    ((∃ entry, collectSlot config states parse k = some entry) ↔
      ∃ e st v, config k = some e ∧ e ≠ "" ∧ states e = some st ∧
        st.state ≠ "unknown" ∧ st.state ≠ "unavailable" ∧
        parse st.state = some v) ∧
    (∀ e st v, config k = some e → e ≠ "" → states e = some st →
      st.state ≠ "unknown" → st.state ≠ "unavailable" →
      parse st.state = some v →
      collectSlot config states parse k =
        some ((SENSOR_TO_WOW_PARAM.lookup k).getD "",
          round2P (match SENSOR_TYPES.lookup k with
            | some ty => convertP v ty st.unit
            | none => v))) := by
  refine ⟨by simp [collectSensorData, List.mem_filterMap], ?_, ?_⟩
  · constructor
    · exact collectSlot_isSome_then config states parse k
    · rintro ⟨e, st, v, he, hee, hst, hu1, hu2, hp⟩
      fin_cases hk <;>
        exact ⟨_, collectSlot_value config states parse _ e st v _
          he hee hst hu1 hu2 hp rfl⟩
  · intro e st v he hee hst hu1 hu2 hp
    fin_cases hk <;>
      exact collectSlot_value config states parse _ e st v _
        he hee hst hu1 hu2 hp rfl

/-- C7 witness: the amended inclusion theorem applied to the concrete
NaN-state configuration produces the temperature entry. -/
theorem assembler_slot_inclusion_witness :
    collectSlot nanConfig nanStates nanParse "sensor_temperature" =
      some (((SENSOR_TO_WOW_PARAM.lookup "sensor_temperature").getD ""),
        round2P (match SENSOR_TYPES.lookup "sensor_temperature" with
          | some ty => convertP PyFloat.nan ty
              (HAState.mk "nan" none).unit
          | none => PyFloat.nan)) :=
  (assembler_slot_inclusion nanConfig nanStates nanParse "x" PyFloat.nan
    "sensor_temperature" (by decide)).2.2 "sensor.t" ⟨"nan", none⟩
    PyFloat.nan rfl (by decide) rfl (by decide) (by decide) rfl

/-- C8: `convert_value_with_unit` is a total function, and converting
with a `None` unit equals converting with the documented fallback unit of
each category: Celsius for temperature, hPa for pressure, mm for rain,
m/s for wind speed, and the identity for humidity and wind direction. -/
theorem converter_null_fallback (v : ℚ) :
    convert_value_with_unit v "temperature" none =
      convert_value_with_unit v "temperature" (some "celsius") ∧
    convert_value_with_unit v "pressure" none =
      convert_value_with_unit v "pressure" (some "hPa") ∧
    convert_value_with_unit v "rain" none =
      convert_value_with_unit v "rain" (some "mm") ∧
    convert_value_with_unit v "wind_speed" none =
      convert_value_with_unit v "wind_speed" (some "m/s") ∧
    convert_value_with_unit v "humidity" none = v ∧
    convert_value_with_unit v "wind_dir" none = v :=
  ⟨rfl, rfl, rfl, rfl, rfl, rfl⟩

/-- C9: a cycle in which an unexpected exception is raised — whether
before or after the request parameters are assigned — is caught by the
`except Exception` handler: the cycle still returns a status snapshot
(the model function is total), the snapshot reports failure with the
exception message, and the tracker field records that message.  Nothing
propagates out of `runCycle`. -/
theorem unexpected_exception_contained (st : CoordState)
    (dateutc : String) (now : Nat) (msg : String)
    (params : List (String × String)) :
    ((runCycle st dateutc now (.raiseEarly msg)).2.1.status = "error" ∧
     (runCycle st dateutc now (.raiseEarly msg)).2.1.last_error
       = some msg ∧
     (runCycle st dateutc now (.raiseEarly msg)).1.last_error
       = some msg) ∧
    ((runCycle st dateutc now (.raiseLate params msg)).2.1.status
       = "error" ∧
     (runCycle st dateutc now (.raiseLate params msg)).2.1.last_error
       = some msg ∧
     (runCycle st dateutc now (.raiseLate params msg)).1.last_error
       = some msg) :=
  ⟨⟨rfl, rfl, rfl⟩, ⟨rfl, rfl, rfl⟩⟩

/-- C10: the dew-point slot is converted with the temperature table under
wire name `dewptf`, the wind-gust slot with the wind-speed table under
`windgustmph`, and the daily-rain slot with the rain table under
`dailyrainin`; for each, a concrete assembly run applies the shared
conversion of that table. -/
theorem extended_slots_use_shared_tables (q : ℚ) :
    SENSOR_TYPES.lookup "sensor_dew_point" = some "temperature" ∧
    SENSOR_TO_WOW_PARAM.lookup "sensor_dew_point" = some "dewptf" ∧
    SENSOR_TYPES.lookup "sensor_wind_gust" = some "wind_speed" ∧
    SENSOR_TO_WOW_PARAM.lookup "sensor_wind_gust" = some "windgustmph" ∧
    SENSOR_TYPES.lookup "sensor_rain_daily" = some "rain" ∧
    SENSOR_TO_WOW_PARAM.lookup "sensor_rain_daily" = some "dailyrainin" ∧
    collectSlot
      (fun k => if k = "sensor_dew_point" then some "sensor.dew" else none)
      (fun e => if e = "sensor.dew" then some ⟨"V", some "°C"⟩ else none)
      (fun s => if s = "V" then some (.finite q) else none)
      "sensor_dew_point" =
      some ("dewptf", .finite (round2 (celsius_to_fahrenheit q))) ∧
    collectSlot
      (fun k => if k = "sensor_wind_gust" then some "sensor.gust" else none)
      (fun e => if e = "sensor.gust" then some ⟨"V", some "m/s"⟩ else none)
      (fun s => if s = "V" then some (.finite q) else none)
      "sensor_wind_gust" =
      some ("windgustmph", .finite (round2 (ms_to_mph q))) ∧
    collectSlot
      (fun k => if k = "sensor_rain_daily" then some "sensor.rd" else none)
      (fun e => if e = "sensor.rd" then some ⟨"V", some "mm"⟩ else none)
      (fun s => if s = "V" then some (.finite q) else none)
      "sensor_rain_daily" =
      some ("dailyrainin", .finite (round2 (mm_to_inches q))) :=
  ⟨rfl, rfl, rfl, rfl, rfl, rfl, rfl, rfl, rfl⟩

end KnmiWow
